import Mathlib

/-
Shallow embedding of `src/mlops/nyc_taxi/src/mlops_pipeline.py`.

The module orchestrates an Azure ML pipeline: it resolves a dataset name from
a JSON config, wires six externally defined components into a job graph, and
submits the graph, optionally polling for completion.  The embedding below
translates the control flow of the module itself; the remote platform is abstracted
as a stream of fetched job statuses (`fetch : Nat → String`, the value
returned by the k-th call to `client.jobs.get`).
-/

namespace MlopsPipeline

/-- The `job_status` list defined at lines 202-214 of `mlops_pipeline.py`:
the statuses for which the while loop keeps polling. -/
def job_status : List String :=
  ["NotStarted", "Queued", "Starting", "Preparing", "Running", "Finalizing",
   "Provisioning", "CancelRequested", "Failed", "Canceled", "NotResponding"]

/-- `total_wait_time = 3600` (line 200). -/
def total_wait_time : Nat := 3600

/-- The argument of `time.sleep(20)` at line 218: each loop iteration sleeps
20 time units. -/
def sleepInterval : Nat := 20

/-- The increment applied to `current_wait_time` at line 223: 15 per
iteration. -/
def waitIncrement : Nat := 15

/-- The early-break test at lines 225-230: after refetching, the loop breaks
if the status is Failed, NotResponding, CancelRequested or Canceled. -/
def isBreakStatus (s : String) : Bool :=
  s == "Failed" || s == "NotResponding" || s == "CancelRequested" || s == "Canceled"

/-- The state in which the while loop of `execute_pipeline` (lines 216-233)
terminates: the job status held by `pipeline_job.status`, the final value of
`current_wait_time`, and the number of `time.sleep(20)` calls performed. -/
structure PollResult where
  status : String
  current_wait_time : Nat
  sleeps : Nat
deriving Repr, DecidableEq

/-- The while loop of `execute_pipeline` (lines 216-233).  Each iteration:
check `pipeline_job.status in job_status`; if `current_wait_time <=
total_wait_time`, sleep 20, refetch the status (`fetch k` is the k-th fetch),
add 15 to `current_wait_time`, and break when the refetched status is one of
the four break statuses; otherwise break. -/
def pollLoop (fetch : Nat → String) (k : Nat) (current_wait_time : Nat)
    (status : String) (sleeps : Nat) : PollResult :=
  if h1 : status ∈ job_status then
    if h2 : current_wait_time ≤ total_wait_time then
      if isBreakStatus (fetch k) then
        ⟨fetch k, current_wait_time + waitIncrement, sleeps + 1⟩
      else
        pollLoop fetch (k + 1) (current_wait_time + waitIncrement) (fetch k) (sleeps + 1)
    else
      ⟨status, current_wait_time, sleeps⟩
  else
    ⟨status, current_wait_time, sleeps⟩
termination_by (total_wait_time + 1) - current_wait_time
decreasing_by
  simp_wf
  simp only [total_wait_time, waitIncrement] at *
  omega

/-- If the initial status is already outside `job_status`, the loop body
never runs. -/
theorem pollLoop_not_polling (fetch : Nat → String) (k cwt sleeps : Nat) (status : String)
    (h : status ∉ job_status) : pollLoop fetch k cwt status sleeps = ⟨status, cwt, sleeps⟩ := by
  rw [pollLoop, dif_neg h]

/-- A run in which every fetched status is "Running": starting from elapsed
counter `3615 - 15 * m`, the loop performs `m` more sleeps and stops with the
counter at 3615. -/
theorem pollLoop_running_aux (fetch : Nat → String) (h : ∀ n, fetch n = "Running") :
    ∀ m, m ≤ 241 → ∀ k sleeps,
      pollLoop fetch k (3615 - 15 * m) "Running" sleeps = ⟨"Running", 3615, sleeps + m⟩ := by
  intro m
  induction m with
  | zero =>
    intro _ k sleeps
    rw [pollLoop]
    rw [dif_pos (by decide : ("Running" : String) ∈ job_status)]
    rw [dif_neg (by decide : ¬ (3615 - 15 * 0 ≤ total_wait_time))]
    norm_num
  | succ m ih =>
    intro hm k sleeps
    rw [pollLoop]
    rw [dif_pos (by decide : ("Running" : String) ∈ job_status)]
    rw [dif_pos (show 3615 - 15 * (m + 1) ≤ total_wait_time by
      simp only [total_wait_time]; omega)]
    rw [h k]
    rw [if_neg (by decide : ¬ (isBreakStatus "Running" = true))]
    have harith : 3615 - 15 * (m + 1) + waitIncrement = 3615 - 15 * m := by
      simp only [waitIncrement]; omega
    rw [harith, ih (by omega) (k + 1) (sleeps + 1)]
    have hsl : sleeps + 1 + m = sleeps + (m + 1) := by omega
    rw [hsl]

/-- The concrete all-"Running" run from the initial state: 241 sleeps, final
counter 3615. -/
theorem pollLoop_const_running :
    pollLoop (fun _ => "Running") 0 0 "Running" 0 = ⟨"Running", 3615, 241⟩ := by
  have h := pollLoop_running_aux (fun _ => "Running") (fun _ => rfl) 241 (by omega) 0 0
  simpa using h

/-- Invariant of the loop, proved by strong induction on the remaining
budget: the final counter equals the starting counter plus `waitIncrement`
per sleep performed, and the sleep count never decreases. -/
theorem pollLoop_invariant_aux :
    ∀ n, ∀ (fetch : Nat → String) (k cwt : Nat) (status : String) (sleeps : Nat),
      (total_wait_time + 1) - cwt = n →
      (pollLoop fetch k cwt status sleeps).current_wait_time
          = cwt + waitIncrement * ((pollLoop fetch k cwt status sleeps).sleeps - sleeps)
        ∧ sleeps ≤ (pollLoop fetch k cwt status sleeps).sleeps := by
  intro n
  induction n using Nat.strong_induction_on with
  | _ n ih =>
    intro fetch k cwt status sleeps hn
    rw [pollLoop]
    by_cases h1 : status ∈ job_status
    · rw [dif_pos h1]
      by_cases h2 : cwt ≤ total_wait_time
      · rw [dif_pos h2]
        by_cases h3 : isBreakStatus (fetch k)
        · rw [if_pos h3]
          refine ⟨?_, ?_⟩
          · simp only [waitIncrement]
            omega
          · simp only
            omega
        · rw [if_neg h3]
          have hlt : (total_wait_time + 1) - (cwt + waitIncrement) < n := by
            simp only [total_wait_time, waitIncrement] at hn h2 ⊢
            omega
          have hrec := ih _ hlt fetch (k + 1) (cwt + waitIncrement) (fetch k) (sleeps + 1) rfl
          have hle := hrec.2
          refine ⟨?_, ?_⟩
          · rw [hrec.1]
            simp only [waitIncrement] at hle ⊢
            omega
          · omega
      · rw [dif_neg h2]
        refine ⟨?_, ?_⟩
        · simp only [waitIncrement]
          omega
        · simp only
          omega
    · rw [dif_neg h1]
      refine ⟨?_, ?_⟩
      · simp only [waitIncrement]
        omega
      · simp only
        omega

/-- The loop invariant with the budget hypothesis discharged. -/
theorem pollLoop_invariant (fetch : Nat → String) (k cwt : Nat) (status : String)
    (sleeps : Nat) :
    (pollLoop fetch k cwt status sleeps).current_wait_time
        = cwt + waitIncrement * ((pollLoop fetch k cwt status sleeps).sleeps - sleeps)
      ∧ sleeps ≤ (pollLoop fetch k cwt status sleeps).sleeps :=
  pollLoop_invariant_aux ((total_wait_time + 1) - cwt) fetch k cwt status sleeps rfl

/-- The message of the exception raised at line 238. -/
def failMessage : String := "Sorry, exiting job with failure.."

/-- The final status check after the loop (lines 235-238): accept
"Completed" or "Finished", otherwise raise. -/
def finalStatusCheck (status : String) : Except String Unit :=
  if status == "Completed" || status == "Finished" then Except.ok ()
  else Except.error failMessage

/-- The body of the `try` block of `execute_pipeline` (lines 182-238).
`submitResult` abstracts the setup and submission steps (`MLClient`,
`create_or_update`, writing the job name): `Except.error e` models an
exception raised there, `Except.ok s` models a successful submission whose
job object initially reports status `s`.  When `wait_for_completion` is the
exact string "True", the while loop runs and the final status check decides
success; otherwise the function returns right after submission. -/
def execute_pipeline_try (submitResult : Except String String)
    (wait_for_completion : String) (fetch : Nat → String) : Except String Unit :=
  match submitResult with
  | Except.error e => Except.error e
  | Except.ok initialStatus =>
    if wait_for_completion == "True" then
      finalStatusCheck (pollLoop fetch 0 0 initialStatus 0).status
    else
      Except.ok ()

/-- The message printed by the `except` handler at lines 240-242. -/
def invalidCredentialsMessage : String :=
  "Oops! invalid credentials or error while creating ML environment.. Try again..."

/-- `execute_pipeline` (lines 155-243): the `try` body wrapped in the single
`except Exception` handler, which prints the invalid-credentials message and
re-raises (`raise` with no argument).  The second component of the result
collects what the handler printed. -/
def execute_pipeline (submitResult : Except String String)
    (wait_for_completion : String) (fetch : Nat → String) :
    Except String Unit × List String :=
  match execute_pipeline_try submitResult wait_for_completion fetch with
  | Except.ok u => (Except.ok u, [])
  | Except.error e => (Except.error e, [invalidCredentialsMessage])

/-- One JSON object of the `datasets` array of the data config read by
`construct_pipeline` (lines 102-107).  Each of the three keys the loop looks
at may be present (`some value`) or absent (`none`). -/
structure DatasetConfigEntry where
  DATA_PURPOSE : Option String
  ENV_NAME : Option String
  DATASET_NAME : Option String
deriving Repr, DecidableEq

/-- The config-resolution loop of `construct_pipeline` (lines 104-107).
`dataset_name` starts as `None` (line 101).  For each element carrying the
keys DATA_PURPOSE and ENV_NAME whose ENV_NAME equals `deploy_environment`,
the DATASET_NAME of the element overwrites the accumulator; `elem["DATASET_NAME"]`
raises a KeyError (modelled as `Except.error`) when that key is absent. -/
def datasetLoop (deploy_environment : String) :
    List DatasetConfigEntry → Option String → Except String (Option String)
  | [], dataset_name => Except.ok dataset_name
  | elem :: rest, dataset_name =>
    if elem.DATA_PURPOSE.isSome && elem.ENV_NAME.isSome then
      if elem.ENV_NAME == some deploy_environment then
        match elem.DATASET_NAME with
        | some n => datasetLoop deploy_environment rest (some n)
        | none => Except.error "KeyError: DATASET_NAME"
      else
        datasetLoop deploy_environment rest dataset_name
    else
      datasetLoop deploy_environment rest dataset_name

/-- Elements that either lack one of the two guarded keys or whose ENV_NAME
differs from the target leave the accumulator untouched. -/
theorem datasetLoop_skip (env : String) :
    ∀ (l : List DatasetConfigEntry),
      (∀ x ∈ l, ¬(x.DATA_PURPOSE.isSome = true ∧ x.ENV_NAME = some env)) →
      ∀ acc, datasetLoop env l acc = Except.ok acc := by
  intro l
  induction l with
  | nil => intro _ acc; rfl
  | cons x rest ih =>
    intro h acc
    have hx := h x (List.mem_cons_self x rest)
    have hrest := ih (fun y hy => h y (List.mem_cons_of_mem x hy)) acc
    by_cases hdp : x.DATA_PURPOSE.isSome = true
    · have henv : x.ENV_NAME ≠ some env := fun he => hx ⟨hdp, he⟩
      have hbeq : (x.ENV_NAME == some env) = false := beq_eq_false_iff_ne.mpr henv
      simp only [datasetLoop, hbeq]
      by_cases hg : (x.DATA_PURPOSE.isSome && x.ENV_NAME.isSome) = true
      · simp only [hg, if_true, Bool.false_eq_true, if_false, hrest]
      · simp only [hg, Bool.false_eq_true, if_false, hrest]
    · have hg : (x.DATA_PURPOSE.isSome && x.ENV_NAME.isSome) = false := by
        simp only [Bool.and_eq_false_iff]
        exact Or.inl (by simpa using hdp)
      simp only [datasetLoop, hg, Bool.false_eq_true, if_false, hrest]

/-- Once the accumulator holds `some n`, traversing elements whose only
possible matches carry DATASET_NAME `n` leaves the accumulator at `some n`. -/
theorem datasetLoop_keep (env : String) (n : String) :
    ∀ (l : List DatasetConfigEntry),
      (∀ x ∈ l, x.DATA_PURPOSE.isSome = true → x.ENV_NAME = some env →
        x.DATASET_NAME = some n) →
      datasetLoop env l (some n) = Except.ok (some n) := by
  intro l
  induction l with
  | nil => intro _; rfl
  | cons x rest ih =>
    intro h
    have hrest := ih (fun y hy => h y (List.mem_cons_of_mem x hy))
    by_cases hdp : x.DATA_PURPOSE.isSome = true
    · by_cases henv : x.ENV_NAME = some env
      · have hname := h x (List.mem_cons_self x rest) hdp henv
        have hg : (x.DATA_PURPOSE.isSome && x.ENV_NAME.isSome) = true := by
          simp [hdp, henv]
        have hbeq : (x.ENV_NAME == some env) = true := by
          simp [henv]
        simp only [datasetLoop, hg, if_true, hbeq, hname, hrest]
      · have hbeq : (x.ENV_NAME == some env) = false := beq_eq_false_iff_ne.mpr henv
        simp only [datasetLoop, hbeq]
        by_cases hg : (x.DATA_PURPOSE.isSome && x.ENV_NAME.isSome) = true
        · simp only [hg, if_true, Bool.false_eq_true, if_false, hrest]
        · simp only [hg, Bool.false_eq_true, if_false, hrest]
    · have hg : (x.DATA_PURPOSE.isSome && x.ENV_NAME.isSome) = false := by
        simp only [Bool.and_eq_false_iff]
        exact Or.inl (by simpa using hdp)
      simp only [datasetLoop, hg, Bool.false_eq_true, if_false, hrest]

/-- The loop over a concatenation runs the first part and, if it did not
raise, continues over the second part from the reached accumulator. -/
theorem datasetLoop_append (env : String) :
    ∀ (l1 l2 : List DatasetConfigEntry) (acc : Option String),
      datasetLoop env (l1 ++ l2) acc
        = (datasetLoop env l1 acc).bind (datasetLoop env l2) := by
  intro l1
  induction l1 with
  | nil => intro l2 acc; rfl
  | cons x rest ih =>
    intro l2 acc
    simp only [List.cons_append, datasetLoop]
    by_cases hg : (x.DATA_PURPOSE.isSome && x.ENV_NAME.isSome) = true
    · simp only [hg, if_true]
      by_cases hbeq : (x.ENV_NAME == some env) = true
      · simp only [hbeq, if_true]
        cases hname : x.DATASET_NAME with
        | some m => exact ih l2 (some m)
        | none => rfl
      · simp only [Bool.not_eq_true] at hbeq
        simp only [hbeq, Bool.false_eq_true, if_false]
        exact ih l2 acc
    · simp only [Bool.not_eq_true] at hg
      simp only [hg, Bool.false_eq_true, if_false]
      exact ih l2 acc

/-- If every match in `l` carries a DATASET_NAME, the loop does not raise a
KeyError over `l`. -/
theorem datasetLoop_no_error (env : String) :
    ∀ (l : List DatasetConfigEntry),
      (∀ x ∈ l, x.DATA_PURPOSE.isSome = true → x.ENV_NAME = some env →
        x.DATASET_NAME.isSome = true) →
      ∀ acc, ∃ acc1, datasetLoop env l acc = Except.ok acc1 := by
  intro l
  induction l with
  | nil => intro _ acc; exact ⟨acc, rfl⟩
  | cons x rest ih =>
    intro h acc
    have hrest := ih (fun y hy => h y (List.mem_cons_of_mem x hy))
    by_cases hg : (x.DATA_PURPOSE.isSome && x.ENV_NAME.isSome) = true
    · by_cases hbeq : (x.ENV_NAME == some env) = true
      · have hdp : x.DATA_PURPOSE.isSome = true := (Bool.and_eq_true_iff.mp hg).1
        have henv : x.ENV_NAME = some env := by
          have := hbeq
          simpa [beq_iff_eq] using this
        have hname := h x (List.mem_cons_self x rest) hdp henv
        cases hval : x.DATASET_NAME with
        | some m =>
          obtain ⟨a1, ha1⟩ := hrest (some m)
          exact ⟨a1, by simp only [datasetLoop, hg, if_true, hbeq, hval, ha1]⟩
        | none => simp [hval] at hname
      · obtain ⟨a1, ha1⟩ := hrest acc
        simp only [Bool.not_eq_true] at hbeq
        exact ⟨a1, by simp only [datasetLoop, hg, if_true, hbeq, Bool.false_eq_true,
          if_false, ha1]⟩
    · obtain ⟨a1, ha1⟩ := hrest acc
      simp only [Bool.not_eq_true] at hg
      exact ⟨a1, by simp only [datasetLoop, hg, Bool.false_eq_true, if_false, ha1]⟩

/-- A pipeline component as handled by `construct_pipeline`: loaded from a
YAML source path (lines 112-117) and then assigned an environment name
(lines 120-125). -/
structure Component where
  source : String
  environment : String
deriving Repr, DecidableEq

/-- `load_component(source=...)` (lines 112-117): the loaded component,
before its environment is set. -/
def load_component (source : String) : Component :=
  ⟨source, ""⟩

/-- The assignment `component.environment = environment_name`
(lines 120-125). -/
def setEnvironment (c : Component) (environment_name : String) : Component :=
  { c with environment := environment_name }

/-- The six components loaded and environment-tagged by
`construct_pipeline`, in the order they are appended to
`gl_pipeline_components` (lines 112-132). -/
def loadedComponents (environment_name : String) : List Component :=
  [setEnvironment (load_component "mlops/nyc_taxi/components/prep.yml") environment_name,
   setEnvironment (load_component "mlops/nyc_taxi/components/transform.yml") environment_name,
   setEnvironment (load_component "mlops/nyc_taxi/components/train.yml") environment_name,
   setEnvironment (load_component "mlops/nyc_taxi/components/predict.yml") environment_name,
   setEnvironment (load_component "mlops/nyc_taxi/components/score.yml") environment_name,
   setEnvironment (load_component "mlops/nyc_taxi/components/register.yml") environment_name]

/-- The effect of one `construct_pipeline` call (lines 127-132) on the
module-level list `gl_pipeline_components` (line 25): the six freshly loaded
components are appended, one `append` at a time, and the list is never
cleared. -/
def construct_pipeline_components (gl : List Component)
    (environment_name : String) : List Component :=
  gl ++ loadedComponents environment_name

/-- Where a step-input value comes from in `nyc_taxi_data_regression`:
either a pipeline parameter value (`pipeline_job_input`, `model_name`,
`build_reference`) or a named output of an earlier step. -/
inductive BindingSource where
  | paramValue (value : String)
  | stepOutput (step : Nat) (output : String)
deriving Repr, DecidableEq

/-- One keyword-argument binding of a step invocation: step `dstStep` input
`dstInput` receives `src`. -/
structure Binding where
  dstStep : Nat
  dstInput : String
  src : BindingSource
deriving Repr, DecidableEq

/-- The job graph built by `nyc_taxi_data_regression` (lines 28-72): the six
step invocations in order (each using one entry of `gl_pipeline_components`)
together with all keyword-argument bindings, and the returned outputs dict. -/
structure JobGraph where
  steps : List Component
  bindings : List Binding
  outputs : List (String × BindingSource)
deriving Repr, DecidableEq

/-- `nyc_taxi_data_regression` (lines 28-72), as a function of the current
`gl_pipeline_components` list and the three pipeline parameters.  The body
indexes the list at 0..5 (an out-of-range index raises, modelled as `none`)
and issues the step invocations in source order with their keyword
arguments. -/
def nyc_taxi_data_regression (gl : List Component) (pipeline_job_input : String)
    (model_name : String) (build_reference : String) : Option JobGraph :=
  match gl[0]?, gl[1]?, gl[2]?, gl[3]?, gl[4]?, gl[5]? with
  | some c0, some c1, some c2, some c3, some c4, some c5 =>
    some
      { steps := [c0, c1, c2, c3, c4, c5],
        bindings :=
          [⟨0, "raw_data", BindingSource.paramValue pipeline_job_input⟩,
           ⟨1, "clean_data", BindingSource.stepOutput 0 "prep_data"⟩,
           ⟨2, "training_data", BindingSource.stepOutput 1 "transformed_data"⟩,
           ⟨3, "model_input", BindingSource.stepOutput 2 "model_output"⟩,
           ⟨3, "test_data", BindingSource.stepOutput 2 "test_data"⟩,
           ⟨4, "predictions", BindingSource.stepOutput 3 "predictions"⟩,
           ⟨4, "model", BindingSource.stepOutput 2 "model_output"⟩,
           ⟨5, "model_metadata", BindingSource.stepOutput 2 "model_metadata"⟩,
           ⟨5, "model_name", BindingSource.paramValue model_name⟩,
           ⟨5, "score_report", BindingSource.stepOutput 4 "score_report"⟩,
           ⟨5, "build_reference", BindingSource.paramValue build_reference⟩],
        outputs :=
          [("pipeline_job_prepped_data", BindingSource.stepOutput 0 "prep_data"),
           ("pipeline_job_transformed_data", BindingSource.stepOutput 1 "transformed_data"),
           ("pipeline_job_trained_model", BindingSource.stepOutput 2 "model_output"),
           ("pipeline_job_test_data", BindingSource.stepOutput 2 "test_data"),
           ("pipeline_job_predictions", BindingSource.stepOutput 3 "predictions"),
           ("pipeline_job_score_report", BindingSource.stepOutput 4 "score_report")] }
  | _, _, _, _, _, _ => none

/-- A binding is an output→input edge when its source is a step output
(rather than a pipeline parameter). -/
def isStepOutputEdge (b : Binding) : Bool :=
  match b.src with
  | BindingSource.stepOutput _ _ => true
  | BindingSource.paramValue _ => false

/-- The output→input edges of a job graph. -/
def outputInputEdges (g : JobGraph) : List Binding :=
  g.bindings.filter isStepOutputEdge

/-- The output→input edges `nyc_taxi_data_regression` always produces, in
source order; there are eight of them. -/
def nycTaxiFixedEdges : List Binding :=
  [⟨1, "clean_data", BindingSource.stepOutput 0 "prep_data"⟩,
   ⟨2, "training_data", BindingSource.stepOutput 1 "transformed_data"⟩,
   ⟨3, "model_input", BindingSource.stepOutput 2 "model_output"⟩,
   ⟨3, "test_data", BindingSource.stepOutput 2 "test_data"⟩,
   ⟨4, "predictions", BindingSource.stepOutput 3 "predictions"⟩,
   ⟨4, "model", BindingSource.stepOutput 2 "model_output"⟩,
   ⟨5, "model_metadata", BindingSource.stepOutput 2 "model_metadata"⟩,
   ⟨5, "score_report", BindingSource.stepOutput 4 "score_report"⟩]

/-- `nyc_taxi_data_regression` reads `gl_pipeline_components` only at
indices 0 through 5. -/
theorem nyc_taxi_take6 (gl1 gl2 : List Component) (i m b : String)
    (h : gl1.take 6 = gl2.take 6) :
    nyc_taxi_data_regression gl1 i m b = nyc_taxi_data_regression gl2 i m b := by
  have key : ∀ j, j < 6 → gl1[j]? = gl2[j]? := by
    intro j hj
    have h1 : (gl1.take 6)[j]? = gl1[j]? := by
      rw [List.getElem?_take, if_pos hj]
    have h2 : (gl2.take 6)[j]? = gl2[j]? := by
      rw [List.getElem?_take, if_pos hj]
    rw [← h1, ← h2, h]
  unfold nyc_taxi_data_regression
  rw [key 0 (by omega), key 1 (by omega), key 2 (by omega), key 3 (by omega),
    key 4 (by omega), key 5 (by omega)]

/-- C1: after the completion-poll loop exits, `execute_pipeline` applies the
final status check to the final status; that check raises for "Failed",
"Canceled" and "NotResponding", and does not raise for "Completed" and
"Finished". -/
theorem C1_final_status_check :
    (∀ (s : String) (fetch : Nat → String),
      execute_pipeline_try (Except.ok s) "True" fetch
        = finalStatusCheck (pollLoop fetch 0 0 s 0).status)
    ∧ finalStatusCheck "Failed" = Except.error failMessage
    ∧ finalStatusCheck "Canceled" = Except.error failMessage
    ∧ finalStatusCheck "NotResponding" = Except.error failMessage
    ∧ finalStatusCheck "Completed" = Except.ok ()
    ∧ finalStatusCheck "Finished" = Except.ok () :=
  ⟨fun _ _ => rfl, rfl, rfl, rfl, rfl, rfl⟩

/-- C2: the completion-poll loop terminates even when every fetched status
is "Running": it performs exactly 241 sleeps and stops with the elapsed
counter at 3615, which exceeds the budget of 3600. -/
theorem C2_loop_terminates (fetch : Nat → String)
    (h : ∀ n, fetch n = "Running") :
    pollLoop fetch 0 0 "Running" 0 = ⟨"Running", 3615, 241⟩
      ∧ total_wait_time < 3615 := by
  refine ⟨?_, by decide⟩
  have haux := pollLoop_running_aux fetch h 241 (by omega) 0 0
  simpa using haux

/-- Witness for C2 at the constant "Running" fetch stream. -/
theorem C2_loop_terminates_witness :
    pollLoop (fun _ => "Running") 0 0 "Running" 0 = ⟨"Running", 3615, 241⟩
      ∧ total_wait_time < 3615 :=
  C2_loop_terminates (fun _ => "Running") (fun _ => rfl)

/-- C3: each loop iteration sleeps 20 time units but adds only 15 to the
elapsed counter, so whenever a run from the initial state ends with the
counter above the budget (the timeout branch), at least 241 sleep periods —
at least 4820 time units of real sleeping — have occurred. -/
theorem C3_sleep_undercount :
    sleepInterval = 20 ∧ waitIncrement = 15
    ∧ ∀ (fetch : Nat → String) (status : String),
        total_wait_time < (pollLoop fetch 0 0 status 0).current_wait_time →
        241 ≤ (pollLoop fetch 0 0 status 0).sleeps
          ∧ 4820 ≤ sleepInterval * (pollLoop fetch 0 0 status 0).sleeps := by
  refine ⟨rfl, rfl, ?_⟩
  intro fetch status h
  have hinv := pollLoop_invariant fetch 0 0 status 0
  obtain ⟨h1, _⟩ := hinv
  simp only [total_wait_time] at h
  simp only [waitIncrement] at h1
  simp only [sleepInterval]
  omega

/-- Witness for C3: the all-"Running" run reaches the timeout branch and has
indeed slept 241 times, 4820 time units in total. -/
theorem C3_sleep_undercount_witness :
    241 ≤ (pollLoop (fun _ => "Running") 0 0 "Running" 0).sleeps
      ∧ 4820 ≤ sleepInterval * (pollLoop (fun _ => "Running") 0 0 "Running" 0).sleeps :=
  C3_sleep_undercount.2.2 (fun _ => "Running") "Running"
    (by rw [pollLoop_const_running]; decide)

/-- C4 counterexample: on a concrete (and in fact on any) input, the job
graph built by `nyc_taxi_data_regression` binds eight output→input edges,
not five. -/
theorem C4_five_edges_counterexample :
    ((nyc_taxi_data_regression (construct_pipeline_components [] "azureml:env:1")
        "input-path" "model" "build").map
      (fun g => (outputInputEdges g).length)) = some 8
    ∧ (8 : Nat) ≠ 5 :=
  ⟨rfl, by decide⟩

/-- C4 (amended): for every choice of input values, whenever
`nyc_taxi_data_regression` builds a job graph, its output→input edges are
the same fixed list of exactly eight edges, in an order that does not depend
on the inputs. -/
theorem C4_fixed_edges (gl : List Component) (i m b : String) (g : JobGraph)
    (h : nyc_taxi_data_regression gl i m b = some g) :
    outputInputEdges g = nycTaxiFixedEdges ∧ nycTaxiFixedEdges.length = 8 := by
  unfold nyc_taxi_data_regression at h
  split at h
  · cases h
    exact ⟨rfl, rfl⟩
  · cases h

/-- Witness for C4 at a concrete component list and concrete inputs. -/
theorem C4_fixed_edges_witness :
    outputInputEdges
        ((nyc_taxi_data_regression (loadedComponents "azureml:env:1")
            "input-path" "model" "build").getD ⟨[], [], []⟩)
      = nycTaxiFixedEdges
    ∧ nycTaxiFixedEdges.length = 8 :=
  C4_fixed_edges (loadedComponents "azureml:env:1") "input-path" "model" "build"
    ((nyc_taxi_data_regression (loadedComponents "azureml:env:1")
        "input-path" "model" "build").getD ⟨[], [], []⟩) rfl

/-- C10: `construct_pipeline` appends exactly six components to the global
list and never clears it, so the list grows by six per call;
`nyc_taxi_data_regression` reads only indices 0-5, hence a second call in
the same process builds its job graph from the six components appended by
the first call. -/
theorem C10_global_components_growth :
    (∀ (gl : List Component) (env : String),
      construct_pipeline_components gl env = gl ++ loadedComponents env
        ∧ (construct_pipeline_components gl env).length = gl.length + 6)
    ∧ (∀ (gl1 gl2 : List Component) (i m b : String),
        gl1.take 6 = gl2.take 6 →
        nyc_taxi_data_regression gl1 i m b = nyc_taxi_data_regression gl2 i m b)
    ∧ (∀ (env1 env2 i m b : String),
        nyc_taxi_data_regression
            (construct_pipeline_components (construct_pipeline_components [] env1) env2)
            i m b
          = nyc_taxi_data_regression (construct_pipeline_components [] env1) i m b) := by
  refine ⟨?_, ?_, ?_⟩
  · intro gl env
    refine ⟨rfl, ?_⟩
    simp [construct_pipeline_components, loadedComponents]
  · intro gl1 gl2 i m b h
    exact nyc_taxi_take6 gl1 gl2 i m b h
  · intro env1 env2 i m b
    apply nyc_taxi_take6
    rfl

/-- Witness for C10: the second of two calls starting from the empty global
list reads the same first six components as the first call. -/
theorem C10_global_components_growth_witness :
    nyc_taxi_data_regression
        (construct_pipeline_components (construct_pipeline_components [] "env-a") "env-b")
        "input-path" "model" "build"
      = nyc_taxi_data_regression (construct_pipeline_components [] "env-a")
          "input-path" "model" "build" :=
  C10_global_components_growth.2.1
    (construct_pipeline_components (construct_pipeline_components [] "env-a") "env-b")
    (construct_pipeline_components [] "env-a") "input-path" "model" "build" rfl

/-- C5 counterexample: a config whose single entry carries the target
ENV_NAME tag (but no DATA_PURPOSE key) is skipped by the loop, so the
dataset name stays none instead of the DATASET_NAME of that entry. -/
theorem C5_unique_match_counterexample :
    datasetLoop "dev" [⟨none, some "dev", some "taxi-data"⟩] none = Except.ok none
    ∧ (none : Option String) ≠ some "taxi-data" :=
  ⟨rfl, by decide⟩

/-- C5 (amended): for every dataset config whose entries each carry both a
DATA_PURPOSE and an ENV_NAME tag, if the target deployment-environment tag
occurs in exactly one entry and that entry has a DATASET_NAME, the
config-resolution loop selects the DATASET_NAME of that entry. -/
theorem C5_unique_match (cfg : List DatasetConfigEntry) (env : String)
    (e : DatasetConfigEntry) (n : String)
    (hkeys : ∀ x ∈ cfg, x.DATA_PURPOSE.isSome = true ∧ x.ENV_NAME.isSome = true)
    (hmem : e ∈ cfg)
    (huniq : ∀ x ∈ cfg, x.ENV_NAME = some env → x = e)
    (henv : e.ENV_NAME = some env)
    (hname : e.DATASET_NAME = some n) :
    datasetLoop env cfg none = Except.ok (some n) := by
  induction cfg with
  | nil => cases hmem
  | cons x rest ih =>
    by_cases hxe : x = e
    · subst hxe
      have hg : (x.DATA_PURPOSE.isSome && x.ENV_NAME.isSome) = true := by
        have hk := hkeys x (List.mem_cons_self x rest)
        simp [hk.1, hk.2]
      have hbeq : (x.ENV_NAME == some env) = true := by simp [henv]
      simp only [datasetLoop, hg, if_true, hbeq, hname]
      exact datasetLoop_keep env n rest (fun y hy _ hyenv => by
        rw [huniq y (List.mem_cons_of_mem x hy) hyenv]; exact hname)
    · have hne : x.ENV_NAME ≠ some env := fun hx =>
        hxe (huniq x (List.mem_cons_self x rest) hx)
      have hbeq : (x.ENV_NAME == some env) = false := beq_eq_false_iff_ne.mpr hne
      have hmem2 : e ∈ rest := by
        rcases List.mem_cons.mp hmem with h | h
        · exact absurd h.symm hxe
        · exact h
      have hrest := ih (fun y hy => hkeys y (List.mem_cons_of_mem x hy)) hmem2
        (fun y hy hyenv => huniq y (List.mem_cons_of_mem x hy) hyenv)
      simp only [datasetLoop, hbeq]
      by_cases hg : (x.DATA_PURPOSE.isSome && x.ENV_NAME.isSome) = true
      · simp only [hg, if_true, Bool.false_eq_true, if_false, hrest]
      · simp only [hg, Bool.false_eq_true, if_false, hrest]

/-- Witness for C5 on a concrete two-entry config with a unique match. -/
theorem C5_unique_match_witness :
    datasetLoop "dev"
        [⟨some "training", some "prod", some "other-data"⟩,
         ⟨some "training", some "dev", some "nyc-taxi-data"⟩] none
      = Except.ok (some "nyc-taxi-data") :=
  C5_unique_match
    [⟨some "training", some "prod", some "other-data"⟩,
     ⟨some "training", some "dev", some "nyc-taxi-data"⟩]
    "dev" ⟨some "training", some "dev", some "nyc-taxi-data"⟩ "nyc-taxi-data"
    (by decide) (by decide) (by decide) rfl rfl

/-- C6: when the ENV_NAME of no entry equals the target tag, the loop leaves the
dataset name unset (none). -/
theorem C6_no_match (cfg : List DatasetConfigEntry) (env : String)
    (h : ∀ x ∈ cfg, x.ENV_NAME ≠ some env) :
    datasetLoop env cfg none = Except.ok none :=
  datasetLoop_skip env cfg (fun x hx hc => h x hx hc.2) none

/-- Witness for C6 on a concrete config without the target tag. -/
theorem C6_no_match_witness :
    datasetLoop "dev"
        [⟨some "training", some "prod", some "other-data"⟩,
         ⟨some "training", none, some "raw-data"⟩] none
      = Except.ok none :=
  C6_no_match
    [⟨some "training", some "prod", some "other-data"⟩,
     ⟨some "training", none, some "raw-data"⟩]
    "dev" (by decide)

/-- C7 counterexample: two entries carry the target ENV_NAME, but the later
one has no DATA_PURPOSE key and is skipped, so the loop keeps the earlier
DATASET_NAME of the earlier entry instead of that of the last match. -/
theorem C7_last_match_counterexample :
    datasetLoop "dev"
        [⟨some "training", some "dev", some "first-data"⟩,
         ⟨none, some "dev", some "second-data"⟩] none
      = Except.ok (some "first-data")
    ∧ (some "first-data" : Option String) ≠ some "second-data" :=
  ⟨rfl, by decide⟩

/-- C7 (amended): among the entries carrying both a DATA_PURPOSE and an
ENV_NAME tag, the loop selects the DATASET_NAME of the last such entry whose
ENV_NAME equals the target tag (duplicate matches are not rejected),
provided earlier matches carry a DATASET_NAME. -/
theorem C7_last_match (env : String) (l1 : List DatasetConfigEntry)
    (e : DatasetConfigEntry) (l2 : List DatasetConfigEntry) (n : String)
    (hdp : e.DATA_PURPOSE.isSome = true)
    (henv : e.ENV_NAME = some env)
    (hname : e.DATASET_NAME = some n)
    (hl1 : ∀ x ∈ l1, x.DATA_PURPOSE.isSome = true → x.ENV_NAME = some env →
      x.DATASET_NAME.isSome = true)
    (hl2 : ∀ x ∈ l2, ¬(x.DATA_PURPOSE.isSome = true ∧ x.ENV_NAME = some env)) :
    datasetLoop env (l1 ++ e :: l2) none = Except.ok (some n) := by
  obtain ⟨acc1, hacc1⟩ := datasetLoop_no_error env l1 hl1 none
  rw [datasetLoop_append env l1 (e :: l2) none, hacc1]
  have hg : (e.DATA_PURPOSE.isSome && e.ENV_NAME.isSome) = true := by
    simp [hdp, henv]
  have hbeq : (e.ENV_NAME == some env) = true := by simp [henv]
  show datasetLoop env (e :: l2) acc1 = Except.ok (some n)
  simp only [datasetLoop, hg, if_true, hbeq, hname]
  exact datasetLoop_skip env l2 hl2 (some n)

/-- Witness for C7 on a concrete config with two full matches: the later
one wins. -/
theorem C7_last_match_witness :
    datasetLoop "dev"
        ([⟨some "training", some "dev", some "early-data"⟩]
          ++ ⟨some "training", some "dev", some "late-data"⟩ :: [])
        none
      = Except.ok (some "late-data") :=
  C7_last_match "dev" [⟨some "training", some "dev", some "early-data"⟩]
    ⟨some "training", some "dev", some "late-data"⟩ [] "late-data"
    rfl rfl rfl (by decide) (by decide)

/-- C8: for any `wait_for_completion` other than the exact string "True"
(such as "true", "TRUE" or "False"), `execute_pipeline` skips the poll loop
and the final status check and returns after submission without raising,
regardless of the fetched statuses. -/
theorem C8_wait_flag_exact_match (w : String) (hw : w ≠ "True")
    (s : String) (fetch : Nat → String) :
    execute_pipeline (Except.ok s) w fetch = (Except.ok (), []) := by
  have hbeq : (w == "True") = false := beq_eq_false_iff_ne.mpr hw
  simp only [execute_pipeline, execute_pipeline_try, hbeq, Bool.false_eq_true, if_false]

/-- Witness for C8 at the lowercase flag "true" and an eventually failing
job. -/
theorem C8_wait_flag_exact_match_witness :
    execute_pipeline (Except.ok "NotStarted") "true" (fun _ => "Failed")
      = (Except.ok (), []) :=
  C8_wait_flag_exact_match "true" (by decide) "NotStarted" (fun _ => "Failed")

/-- C9: every exception raised in the try block of `execute_pipeline` —
setup errors and the generic job-failure exception alike — is caught by the
single handler, logged with the invalid-credentials message, and re-raised
unchanged; the function never swallows an exception and never turns a
failure into a normal return. -/
theorem C9_handler_reraises (submitResult : Except String String)
    (w : String) (fetch : Nat → String) :
    (execute_pipeline submitResult w fetch).1
        = execute_pipeline_try submitResult w fetch
    ∧ (∀ e, execute_pipeline_try submitResult w fetch = Except.error e →
        (execute_pipeline submitResult w fetch).2 = [invalidCredentialsMessage]) := by
  cases h : execute_pipeline_try submitResult w fetch with
  | ok u =>
    refine ⟨?_, ?_⟩
    · simp [execute_pipeline, h]
    · intro e he
      cases he
  | error e =>
    refine ⟨?_, ?_⟩
    · simp [execute_pipeline, h]
    · intro e2 _
      simp [execute_pipeline, h]

/-- Witness for C9: a setup error propagates unchanged and is logged with
the invalid-credentials message. -/
theorem C9_handler_reraises_witness :
    (execute_pipeline (Except.error "AuthError") "True" (fun _ => "Running")).1
        = Except.error "AuthError"
    ∧ (execute_pipeline (Except.error "AuthError") "True" (fun _ => "Running")).2
        = [invalidCredentialsMessage] :=
  ⟨(C9_handler_reraises (Except.error "AuthError") "True" (fun _ => "Running")).1,
   (C9_handler_reraises (Except.error "AuthError") "True" (fun _ => "Running")).2
     "AuthError" rfl⟩

end MlopsPipeline
